import Mathlib

/-
Verification of the squaremap_combine tile-stitching core: a shallow
embedding of the geometry classes (`geo.py`), the color utilities
(`util.py`) and the `Combiner.combine` pipeline (`core.py`), with
theorems settling the specification claims.

Python integers are modelled as `Int`; Python `//` and `%` are floor
division/modulo, modelled as `Int.fdiv` / `Int.fmod`.  Python floats are
modelled as exact rationals `ℚ` (the claims under test concern whole-number
checks, truncation and flooring, none of which depend on binary rounding).
-/

namespace SqmapCombine

/-- Embedding of `geo.Rect`: `(x1, y1, x2, y2)`, top-left to bottom-right. -/
structure Rect where
  x1 : Int
  y1 : Int
  x2 : Int
  y2 : Int
deriving DecidableEq, Repr

namespace Rect

/-- `Rect.width` = `x2 - x1`. -/
def width (r : Rect) : Int := r.x2 - r.x1

/-- `Rect.height` = `y2 - y1`. -/
def height (r : Rect) : Int := r.y2 - r.y1

/-- `Rect.size` = `(width, height)`. -/
def size (r : Rect) : Int × Int := (r.width, r.height)

/-- `Rect.center` = `(x1 + width // 2, y1 + height // 2)`. -/
def center (r : Rect) : Int × Int := (r.x1 + r.width.fdiv 2, r.y1 + r.height.fdiv 2)

/-- Top-left corner, `Rect.corners[0]`. -/
def topLeft (r : Rect) : Int × Int := (r.x1, r.y1)

/-- Bottom-right corner, `Rect.corners[-1]`. -/
def bottomRight (r : Rect) : Int × Int := (r.x2, r.y2)

/-- `Rect.map(fn)`: apply `fn` to each of the four scalar fields. -/
def map (r : Rect) (fn : Int → Int) : Rect := ⟨fn r.x1, fn r.y1, fn r.x2, fn r.y2⟩

/-- `Rect.resize(xy, from_center)`: by default only the bottom-right corner
moves; with `from_center` half of `xy` is added on each side. -/
def resize (r : Rect) (xy : Int × Int) (fromCenter : Bool) : Rect :=
  if fromCenter then
    let hx := xy.1.fdiv 2
    let hy := xy.2.fdiv 2
    ⟨r.x1 - hx, r.y1 - hy, r.x2 + hx, r.y2 + hy⟩
  else
    ⟨r.x1, r.y1, r.x2 + xy.1, r.y2 + xy.2⟩

/-- `Rect.translate_by(xy)`. -/
def translate_by (r : Rect) (xy : Int × Int) : Rect :=
  ⟨r.x1 + xy.1, r.y1 + xy.2, r.x2 + xy.1, r.y2 + xy.2⟩

/-- `Rect.translate_to(xy)`: shift so the top-left corner becomes `xy`. -/
def translate_to (r : Rect) (xy : Int × Int) : Rect :=
  r.translate_by (xy.1 - r.x1, xy.2 - r.y1)

/-- `Rect.from_size(width, height, center)`.  A supplied `center` (a truthy
`Coord2i` in Python) selects the centered construction. -/
def from_size (w h : Int) (center : Option (Int × Int)) : Rect :=
  match center with
  | some c => ⟨c.1 - w.fdiv 2, c.2 - h.fdiv 2,
               c.1 + w.fdiv 2 + w.fmod 2, c.2 + h.fdiv 2 + h.fmod 2⟩
  | none => ⟨0, 0, w, h⟩

end Rect

/-- Length of Python `range(a, b, s)` (0 when `s = 0`, which Python rejects;
all call sites in the embedded code guard `s ≠ 0` first). -/
def pyRangeLen (a b s : Int) : Nat :=
  if 0 < s then ((b - a + s - 1).fdiv s).toNat
  else if s < 0 then ((a - b + (-s) - 1).fdiv (-s)).toNat
  else 0

/-- Python `range(a, b, s)` as a list. -/
def pyRange (a b s : Int) : List Int :=
  (List.range (pyRangeLen a b s)).map fun k : Nat => a + s * (k : Int)

/-- `util.snap_num(num, mult, ceil)` = `mult * ceil(num / mult)` with exact
(true) division; for `mult ≠ 0`, `⌈num / mult⌉ = -((-num).fdiv mult)`. -/
def snapCeil (num mult : Int) : Int := mult * (-((-num).fdiv mult))

/-- `util.snap_num(num, mult, floor)` = `mult * floor(num / mult)` with exact
(true) division; for `mult ≠ 0`, `⌊num / mult⌋ = num.fdiv mult`. -/
def snapFloor (num mult : Int) : Int := mult * (num.fdiv mult)

/-- One axis of `Grid.steps_x` / `Grid.steps_y`: boundaries snapped to the
step and offset by the origin component, then two ranges concatenated with
the duplicated origin element dropped. -/
def stepsAxis (r1 r2 step o : Int) : List Int :=
  if step = 0 then []
  else
    let b0 := snapCeil r1 step + o
    let b1 := snapFloor r2 step + o
    pyRange b0 (min o b1 + 1) step ++ (pyRange o (b1 + 1) step).drop 1

/-- Embedding of `geo.Grid`: a rect, a step interval and an origin. -/
structure Grid where
  rect : Rect
  step : Int
  origin : Int × Int
deriving DecidableEq, Repr

namespace Grid

/-- `Grid.steps_x`. -/
def steps_x (g : Grid) : List Int := stepsAxis g.rect.x1 g.rect.x2 g.step g.origin.1

/-- `Grid.steps_y`. -/
def steps_y (g : Grid) : List Int := stepsAxis g.rect.y1 g.rect.y2 g.step g.origin.2

/-- `Grid.steps_count` = `len(steps_x) * len(steps_y)`. -/
def steps_count (g : Grid) : Nat := g.steps_x.length * g.steps_y.length

/-- `Grid.iter_steps()`: `itertools.product(steps_x, steps_y)`, i.e. for each
x all y values in order. -/
def iter_steps (g : Grid) : List (Int × Int) :=
  g.steps_x.flatMap fun x => g.steps_y.map fun y => (x, y)

/-- `Grid.copy(step=...)`: rebuilds via `Grid(rect, step=...)`, so the origin
falls back to the constructor default `(0, 0)`. -/
def copy (g : Grid) (step : Option Int) : Grid :=
  ⟨g.rect, step.getD g.step, (0, 0)⟩

/-- `Grid.resize(xy, from_center)`: rebuilds via `Grid(rect.resize(...), step)`,
origin again defaulting to `(0, 0)`. -/
def resize (g : Grid) (xy : Int × Int) (fromCenter : Bool) : Grid :=
  ⟨g.rect.resize xy fromCenter, g.step, (0, 0)⟩

/-- `Grid.translate_by(xy)`: shifts rect and origin together. -/
def translate_by (g : Grid) (xy : Int × Int) : Grid :=
  ⟨g.rect.translate_by xy, g.step, (g.origin.1 + xy.1, g.origin.2 + xy.2)⟩

/-- `Grid.translate_to(xy)`: origin becomes `origin - (top_left - xy)`. -/
def translate_to (g : Grid) (xy : Int × Int) : Grid :=
  ⟨g.rect.translate_to xy, g.step,
   (g.origin.1 - (g.rect.x1 - xy.1), g.origin.2 - (g.rect.y1 - xy.2))⟩

end Grid

/-- `const.SQMAP_TILE_BLOCKS`: blocks covered by one tile. -/
def SQMAP_TILE_BLOCKS : Int := 512

/-- `const.SQMAP_TILE_SIZE`: tile image side in pixels. -/
def SQMAP_TILE_SIZE : Int := 512

/-- `const.RGB_CHANNEL_MAX`. -/
def RGB_CHANNEL_MAX : Int := 255

/-- `const.SQMAP_ZOOM_BPP`: blocks-per-pixel per zoom level `{0:8, 1:4, 2:2, 3:1}`. -/
def SQMAP_ZOOM_BPP : Fin 4 → Int
  | 0 => 8
  | 1 => 4
  | 2 => 2
  | 3 => 1

/-- `Grid.from_steps`, rect part, transcribed with its initial `0` bounds and
its use of `coord[0]` in all four `min`/`max` updates.  The Python method
raises on an empty sequence; the sole caller guards non-emptiness. -/
def fromStepsRect (steps : List (Int × Int)) : Rect :=
  ⟨steps.foldl (fun acc c => min acc c.1) 0,
   steps.foldl (fun acc c => min acc c.1) 0,
   steps.foldl (fun acc c => max acc c.1) 0,
   steps.foldl (fun acc c => max acc c.1) 0⟩

/-- Tile-index rect from a user `area`: `area.map(lambda n: n // (SQMAP_TILE_BLOCKS * zoom_bpp))`. -/
def tileRectOfArea (area : Rect) (bpp : Int) : Rect :=
  area.map fun n => n.fdiv (SQMAP_TILE_BLOCKS * bpp)

/-- The degenerate-grid special case in `Combiner.combine`: only when the rect
size is exactly `(0, 0)` are `x2` and `y2` bumped by one. -/
def bumpDegenerate (r : Rect) : Rect :=
  if r.size = ((0 : Int), (0 : Int)) then ⟨r.x1, r.y1, r.x2 + 1, r.y2 + 1⟩ else r

/-- Rect of the world grid: tile rect scaled by `SQMAP_TILE_BLOCKS * zoom_bpp`
then resized by the same amount (bottom-right corner only). -/
def worldRect (tileRect : Rect) (bpp : Int) : Rect :=
  (tileRect.map fun n => n * (SQMAP_TILE_BLOCKS * bpp)).resize
    (SQMAP_TILE_BLOCKS * bpp, SQMAP_TILE_BLOCKS * bpp) false

/-- Rect of the canvas grid: tile rect translated to `(0, 0)`, scaled by the
tile pixel size, then resized by one tile. -/
def canvasRect (tileRect : Rect) : Rect :=
  ((tileRect.translate_to (0, 0)).map fun n => n * SQMAP_TILE_SIZE).resize
    (SQMAP_TILE_SIZE, SQMAP_TILE_SIZE) false

/-- The `area` crop box of `Combiner.combine`: canvas-grid corners plus the
floor-divided offsets `(area.corner - world_grid.rect.corner) // zoom_bpp`,
top-left with top-left and bottom-right with bottom-right. -/
def areaCropBox (area : Rect) (zoom : Fin 4) : Rect :=
  let bpp := SQMAP_ZOOM_BPP zoom
  let t := bumpDegenerate (tileRectOfArea area bpp)
  let w := worldRect t bpp
  let c := canvasRect t
  ⟨c.x1 + (area.x1 - w.x1).fdiv bpp,
   c.y1 + (area.y1 - w.y1).fdiv bpp,
   c.x2 + (area.x2 - w.x2).fdiv bpp,
   c.y2 + (area.y2 - w.y2).fdiv bpp⟩

/-- Python exception kinds raised by (or escaping from) `Combiner.combine`. -/
inductive PyErr where
  | notADirectoryError
  | combineError
  | indexError
  | zeroDivisionError
deriving DecidableEq, Repr

/-- Observable side effects of `Combiner.combine` that matter to the claims:
allocating the canvas raster and compositing one tile. -/
inductive Ev where
  | alloc (size : Int × Int)
  | composited (tile : Int × Int)
deriving DecidableEq, Repr

/-- One entry of the `glob` scan of `{world}/{zoom}`: the result of
`SQMAP_TILE_NAME_REGEX.findall(fp.stem)[0]`, `none` when the stem has no
`{col}_{row}` match (in which case the Python comprehension raises
`IndexError`). -/
def parseScan : List (Option (Int × Int)) → Option (List (Int × Int))
  | [] => some []
  | none :: _ => none
  | some c :: rest => (parseScan rest).map fun cs => c :: cs

/-- The tile grid built in `Combiner.combine`: `Grid(area // tile-span)` when
an area is given, else `Grid.from_steps(tiles.keys())`; in both cases
`step = 1` and the origin is the constructor default `(0, 0)`. -/
def tileGridOf (area : Option Rect) (bpp : Int) (tiles : List (Int × Int)) : Grid :=
  match area with
  | some a => ⟨tileRectOfArea a bpp, 1, (0, 0)⟩
  | none => ⟨fromStepsRect tiles, 1, (0, 0)⟩

/-- The part of `Combiner.combine` from the zero-tile check onward: grid
derivation, canvas allocation, tile compositing and the `area` crop.
`Grid.map` recomputes the origin by dividing by the rect extents, so a zero
extent on either axis raises `ZeroDivisionError` there; the grid-overlay and
final `crop` stages are modelled separately (`areaCropBox`, `Rect.from_size`).
-/
def combineTiles (tiles : List (Int × Int)) (zoom : Fin 4) (area : Option Rect) :
    List Ev × Except PyErr (Int × Int) :=
  if tiles.isEmpty then ([], .error .combineError)
  else
    let bpp := SQMAP_ZOOM_BPP zoom
    let tileGrid0 := tileGridOf area bpp tiles
    let tileGrid : Grid :=
      ⟨bumpDegenerate tileGrid0.rect, tileGrid0.step, tileGrid0.origin⟩
    if tileGrid.rect.width = 0 ∨ tileGrid.rect.height = 0 then
      ([], .error .zeroDivisionError)
    else
      let canvas := canvasRect tileGrid.rect
      let sz := canvas.size
      let placed := tileGrid.iter_steps.filter fun c => tiles.contains c
      let final :=
        match area with
        | some a => (areaCropBox a zoom).size
        | none => sz
      (Ev.alloc sz :: placed.map Ev.composited, .ok final)

/-- Shallow embedding of `Combiner.combine` covering directory validation and
tile scanning, handing over to `combineTiles`.  `worldIsDir` abstracts
`world.is_dir()`; `scan` abstracts the files found by `glob` (each with its
tile-name parse result).  Returns the event trace and either the escaping
exception or the final image size. -/
def combine (worldIsDir : Bool) (scan : List (Option (Int × Int)))
    (zoom : Fin 4) (area : Option Rect) : List Ev × Except PyErr (Int × Int) :=
  if worldIsDir = false then ([], .error .notADirectoryError)
  else
    match parseScan scan with
    | none => ([], .error .indexError)
    | some tiles => combineTiles tiles zoom area

/-- Embedding of `util.Color`: four integer channels. -/
structure Color where
  red : Int
  green : Int
  blue : Int
  alpha : Int
deriving DecidableEq, Repr

/-- `Color.__init__`: rejects a channel only when it exceeds
`RGB_CHANNEL_MAX` (`any(channel > RGB_CHANNEL_MAX ...)`); no lower bound is
checked. -/
def colorInit (red green blue alpha : Int) : Option Color :=
  if red > RGB_CHANNEL_MAX ∨ green > RGB_CHANNEL_MAX ∨
      blue > RGB_CHANNEL_MAX ∨ alpha > RGB_CHANNEL_MAX then none
  else some ⟨red, green, blue, alpha⟩

/-- One character of `Color.HEXCODE_REGEX`'s class `[0-9a-f]` (lowercase only). -/
def isHexChar (c : Char) : Bool :=
  (decide ('0' ≤ c) && decide (c ≤ '9')) || (decide ('a' ≤ c) && decide (c ≤ 'f'))

/-- Value of one hex digit, as used by `int(s, 16)` on characters matching
`[0-9a-f]`. -/
def hexDigitVal (c : Char) : Nat :=
  if '0' ≤ c ∧ c ≤ '9' then c.toNat - 48 else c.toNat - 87

/-- `Color.ensure_hex_format`: strip leading `#`, require 3/6/8 lowercase hex
characters, double a 3-digit code, then append `ff` to a 6-digit code. -/
def ensureHexFormat (s : List Char) : Option (List Char) :=
  let cs := s.dropWhile fun c => c = '#'
  if cs.all isHexChar && (cs.length = 3 || cs.length = 6 || cs.length = 8) then
    let cs2 := if cs.length = 3 then cs.flatMap fun c => [c, c] else cs
    let cs3 := if cs2.length = 6 then cs2 ++ ['f', 'f'] else cs2
    some cs3
  else none

/-- `Color.from_hex`: validate/normalise the hexcode, split into four pairs
of digits, parse each pair base 16 and feed the values to the constructor. -/
def fromHex (s : List Char) : Option Color :=
  match ensureHexFormat s with
  | none => none
  | some cs =>
    match cs with
    | [c0, c1, c2, c3, c4, c5, c6, c7] =>
      colorInit ((16 * hexDigitVal c0 + hexDigitVal c1 : Nat) : Int)
        ((16 * hexDigitVal c2 + hexDigitVal c3 : Nat) : Int)
        ((16 * hexDigitVal c4 + hexDigitVal c5 : Nat) : Int)
        ((16 * hexDigitVal c6 + hexDigitVal c7 : Nat) : Int)
    | _ => none

/-- Python `int(x)` on a float, modelled on exact rationals: truncation toward
zero (`num.tdiv den`). -/
def pytrunc (q : ℚ) : Int := q.num.tdiv q.den

/-- `Coord2i.__init__` on two float components: raise `ValueError` when
`x % 1 != 0` (that is, `Int.fract x ≠ 0`), else store `int(x)`. -/
def mkCoord2i (x y : ℚ) : Option (Int × Int) :=
  if Int.fract x ≠ 0 then none
  else if Int.fract y ≠ 0 then none
  else some (pytrunc x, pytrunc y)

/-- `Coord2f.as_int(round_fn)`: apply the rounding function to both
components.  The default `round_fn` is Python's `int`, i.e. `pytrunc`. -/
def coord2fAsInt (roundFn : ℚ → Int) (c : ℚ × ℚ) : Int × Int :=
  (roundFn c.1, roundFn c.2)

lemma length_pairs (xs ys : List Int) :
    (xs.flatMap fun x => ys.map fun y => (x, y)).length = xs.length * ys.length := by
  induction xs with
  | nil => simp
  | cons a t ih => simp [ih, Nat.succ_mul, Nat.add_comm]

lemma mem_pairs (xs ys : List Int) (p : Int × Int) :
    p ∈ (xs.flatMap fun x => ys.map fun y => (x, y)) ↔ p.1 ∈ xs ∧ p.2 ∈ ys := by
  constructor
  · intro h
    rcases List.mem_flatMap.mp h with ⟨x, hx, hmap⟩
    rcases List.mem_map.mp hmap with ⟨y, hy, hp⟩
    subst hp
    exact ⟨hx, hy⟩
  · rintro ⟨h1, h2⟩
    exact List.mem_flatMap.mpr ⟨p.1, h1, List.mem_map.mpr ⟨p.2, h2, rfl⟩⟩

deriving instance DecidableEq for Except

lemma combineTiles_domain_iff (tiles : List (Int × Int)) (zoom : Fin 4)
    (area : Option Rect) :
    ((combineTiles tiles zoom area).2 = Except.error PyErr.combineError ↔ tiles = []) := by
  simp only [combineTiles]
  split_ifs with h1 h2
  · simp [List.isEmpty_iff.mp h1]
  · have ht : tiles ≠ [] := by simpa [List.isEmpty_iff] using h1
    simp [ht]
  · have ht : tiles ≠ [] := by simpa [List.isEmpty_iff] using h1
    simp [ht]

lemma combineTiles_error_trace (tiles : List (Int × Int)) (zoom : Fin 4)
    (area : Option Rect) (e : PyErr)
    (h : (combineTiles tiles zoom area).2 = Except.error e) :
    (combineTiles tiles zoom area).1 = [] := by
  simp only [combineTiles] at h ⊢
  split_ifs at h ⊢ <;> rfl

lemma combineTiles_ne_dirError (tiles : List (Int × Int)) (zoom : Fin 4)
    (area : Option Rect) :
    (combineTiles tiles zoom area).2 ≠ Except.error PyErr.notADirectoryError := by
  simp only [combineTiles]
  split_ifs <;> simp

lemma parseScan_empty_iff (scan : List (Option (Int × Int))) (tiles : List (Int × Int))
    (h : parseScan scan = some tiles) : (tiles = [] ↔ scan = []) := by
  cases scan with
  | nil =>
    simp [parseScan] at h
    simp [h.symm]
  | cons o rest =>
    cases o with
    | none => exact Option.noConfusion h
    | some c =>
      simp only [parseScan] at h
      cases hp : parseScan rest with
      | none => rw [hp] at h; simp at h
      | some cs =>
        rw [hp] at h
        injection h with h
        subst h
        simp

end SqmapCombine

namespace SqmapCombine

/-- C7: the claim says `translate_to`, `resize` and `copy(step=...)` carry
`step` and `origin` over (origin shift-adjusted for `translate_to`).  This is
false for `copy`: rebuilding via the `Grid` constructor resets the origin to
the default `(0, 0)`. -/
theorem c7_counterexample :
    ((Grid.mk ⟨0, 0, 10, 10⟩ 1 (5, 5)).copy none).origin ≠ ((5 : Int), (5 : Int)) := by
  decide

/-- C7 (amended): `translate_to` translates the rect, carries `step` and
shifts the origin by the translation; `resize` and `copy` transform or copy
the rect and carry (or override) `step`, but reset the origin to the
constructor default `(0, 0)`. -/
theorem c7_thin_wrappers (g : Grid) (xy v : Int × Int) (fc : Bool) (s : Int) :
    (g.translate_to xy).rect = g.rect.translate_to xy ∧
    (g.translate_to xy).step = g.step ∧
    (g.translate_to xy).origin =
      (g.origin.1 + (xy.1 - g.rect.x1), g.origin.2 + (xy.2 - g.rect.y1)) ∧
    (g.resize v fc).rect = g.rect.resize v fc ∧
    (g.resize v fc).step = g.step ∧
    (g.resize v fc).origin = (0, 0) ∧
    (g.copy none).rect = g.rect ∧
    (g.copy none).step = g.step ∧
    (g.copy none).origin = (0, 0) ∧
    (g.copy (some s)).rect = g.rect ∧
    (g.copy (some s)).step = s ∧
    (g.copy (some s)).origin = (0, 0) := by
  refine ⟨rfl, rfl, ?_, rfl, rfl, rfl, rfl, rfl, rfl, rfl, rfl, rfl⟩
  simp only [Grid.translate_to, Prod.mk.injEq]
  constructor <;> ring

/-- C8: `steps_count` equals `len(steps_x) * len(steps_y)`, which equals the
length of `iter_steps()`, and `iter_steps()` is exactly the cartesian product
of `steps_x` and `steps_y` in row-major-by-x order (all y for each x), for
every grid (any rect, any step including 0, any origin). -/
theorem c8_steps_product (g : Grid) :
    g.steps_count = g.steps_x.length * g.steps_y.length ∧
    g.iter_steps.length = g.steps_count ∧
    g.iter_steps = (g.steps_x.flatMap fun x => g.steps_y.map fun y => (x, y)) ∧
    ∀ p : Int × Int, p ∈ g.iter_steps ↔ p.1 ∈ g.steps_x ∧ p.2 ∈ g.steps_y := by
  refine ⟨rfl, length_pairs _ _, rfl, fun p => mem_pairs _ _ p⟩

/-- C9: the claim says the `Color` constructor fails for any channel outside
`[0, 255]`.  It only checks the upper bound: `Color(-1, 0, 0, 255)` is
accepted and carries a negative channel. -/
theorem c9_counterexample :
    colorInit (-1) 0 0 255 = some ⟨-1, 0, 0, 255⟩ ∧ (-1 : Int) < 0 := by
  decide

/-- C9 (amended): the constructor succeeds iff no channel exceeds 255 (the
lower bound is not checked, so negative channels are accepted), and every
`Color` built by `from_hex` has all four channels within `[0, 255]`. -/
theorem c9_channel_bounds :
    (∀ r g b a : Int, (colorInit r g b a).isSome ↔
      (r ≤ 255 ∧ g ≤ 255 ∧ b ≤ 255 ∧ a ≤ 255)) ∧
    (∀ (s : List Char) (c : Color), fromHex s = some c →
      0 ≤ c.red ∧ c.red ≤ 255 ∧ 0 ≤ c.green ∧ c.green ≤ 255 ∧
      0 ≤ c.blue ∧ c.blue ≤ 255 ∧ 0 ≤ c.alpha ∧ c.alpha ≤ 255) := by
  constructor
  · intro r g b a
    unfold colorInit RGB_CHANNEL_MAX
    split
    · simpa using by omega
    · simp only [Option.isSome_some, true_iff]
      omega
  · intro s c h
    unfold fromHex at h
    split at h
    · exact absurd h (by simp)
    · split at h
      · unfold colorInit RGB_CHANNEL_MAX at h
        split at h
        · exact absurd h (by simp)
        · rename_i hbound
          injection h with h
          subst h
          push_neg at hbound
          dsimp only
          omega
      · exact absurd h (by simp)

/-- C1: the claim says the no-`area` tile grid takes its x bounds from the x
components and its y bounds from the y components of the tile indices present,
yielding an `(N*T, M*T)` canvas for a full N-by-M block.  `Grid.from_steps`
instead clamps all four bounds to 0 and derives even the y bounds from the x
components: the full 2-by-2 block `{(1,1), (1,2), (2,1), (2,2)}` produces the
tile rect `(0, 0, 2, 2)` — not `(1, 1, 2, 2)` — and a 1536 by 1536 canvas
instead of the claimed 1024 by 1024. -/
theorem c1_from_steps_bounds :
    fromStepsRect [(1, 1), (1, 2), (2, 1), (2, 2)] = ⟨0, 0, 2, 2⟩ ∧
    (combine true [some (1, 1), some (1, 2), some (2, 1), some (2, 2)] 3 none).2 =
      Except.ok (1536, 1536) ∧
    ((1536, 1536) : Int × Int) ≠ (2 * SQMAP_TILE_SIZE, 2 * SQMAP_TILE_SIZE) := by
  refine ⟨by decide, by decide, by decide⟩

/-- C2: the claim says any degenerate tile rect (min = max on one or both
axes) has its far corner expanded so no later step divides by a zero extent.
The code only expands when the size is exactly `(0, 0)`: for
`area = (0, 0, 5000, 100)` at zoom 3 the tile rect is `(0, 0, 9, 0)` —
degenerate in y only — no expansion happens, and `Grid.map`'s origin
recomputation divides by the zero y extent (`ZeroDivisionError`). -/
theorem c2_degenerate_one_axis :
    tileRectOfArea ⟨0, 0, 5000, 100⟩ 1 = ⟨0, 0, 9, 0⟩ ∧
    bumpDegenerate (tileRectOfArea ⟨0, 0, 5000, 100⟩ 1) = ⟨0, 0, 9, 0⟩ ∧
    (bumpDegenerate (tileRectOfArea ⟨0, 0, 5000, 100⟩ 1)).height = 0 ∧
    (combine true [some (0, 0)] 3 (some ⟨0, 0, 5000, 100⟩)).2 =
      Except.error PyErr.zeroDivisionError := by
  refine ⟨by decide, by decide, by decide, by decide⟩

/-- C3: what the fixed-size crop is specified to do.  `Rect.from_size` with a
width, a height and a truthy center produces a rect of exactly that size whose
center is the given point.  (In `Combiner.combine` the call site passes the
`(width, height)` tuple as the single `width` argument and no `height`, so in
the source this branch raises `TypeError` instead of cropping.) -/
theorem c3_from_size_centered (w h : Int) (c : Int × Int) :
    (Rect.from_size w h (some c)).size = (w, h) ∧
    (Rect.from_size w h (some c)).center = c := by
  have hd : ∀ a : Int, a.fdiv 2 = a / 2 := fun a => Int.fdiv_eq_ediv a (by norm_num)
  have hm : ∀ a : Int, a.fmod 2 = a % 2 := fun a => Int.fmod_eq_emod a (by norm_num)
  obtain ⟨c1, c2⟩ := c
  constructor
  · dsimp only [Rect.from_size, Rect.size, Rect.width, Rect.height]
    simp only [hd, hm, Prod.mk.injEq]
    omega
  · dsimp only [Rect.from_size, Rect.center, Rect.width, Rect.height]
    simp only [hd, hm, Prod.mk.injEq]
    omega

/-- C6: the claim reads "domain error iff the tile scan yields zero matching
files".  A directory containing one file whose stem does not match the
`{col}_{row}` pattern has zero matching files, yet the comprehension's
`findall(...)[0]` raises `IndexError` before the zero-tile check, so no
domain error (`CombineError`) is raised. -/
theorem c6_counterexample :
    ([(none : Option (Int × Int))].filterMap id).length = 0 ∧
    (combine true [none] 3 none).2 = Except.error PyErr.indexError ∧
    (combine true [none] 3 none).2 ≠ Except.error PyErr.combineError := by
  refine ⟨by decide, by decide, by decide⟩

/-- C6 (amended): `combine` fails with the directory error iff the resolved
world path is not a directory; given the directory exists, it fails with the
domain error (`CombineError`) iff the glob scan finds zero files (when files
are found, a stem not matching the tile-name pattern escapes as `IndexError`
instead); and whenever any error is raised, the event trace is empty — no
canvas was allocated and no tile composited. -/
theorem c6_error_phases (isDir : Bool) (scan : List (Option (Int × Int)))
    (zoom : Fin 4) (area : Option Rect) :
    ((combine isDir scan zoom area).2 = Except.error PyErr.notADirectoryError ↔
      isDir = false) ∧
    (isDir = true →
      ((combine isDir scan zoom area).2 = Except.error PyErr.combineError ↔ scan = [])) ∧
    (∀ e, (combine isDir scan zoom area).2 = Except.error e →
      (combine isDir scan zoom area).1 = []) := by
  cases isDir with
  | false => simp [combine]
  | true =>
    have hcmb : combine true scan zoom area =
        (match parseScan scan with
         | none => ([], Except.error PyErr.indexError)
         | some tiles => combineTiles tiles zoom area) := by
      simp [combine]
    cases hp : parseScan scan with
    | none =>
      rw [hcmb, hp]
      refine ⟨by simp, fun _ => ?_, by simp⟩
      constructor
      · intro h
        simp at h
      · intro h
        subst h
        simp [parseScan] at hp
    | some tiles =>
      rw [hcmb, hp]
      refine ⟨?_, fun _ => ?_, ?_⟩
      · simp [combineTiles_ne_dirError tiles zoom area]
      · rw [combineTiles_domain_iff]
        exact parseScan_empty_iff scan tiles hp
      · intro e he
        exact combineTiles_error_trace tiles zoom area e he

/-- C6 witness: the amended theorem applied at an existing directory whose
scan found zero files. -/
theorem c6_error_phases_witness :
    (combine true [] 3 none).2 = Except.error PyErr.combineError :=
  ((c6_error_phases true [] 3 none).2.1 rfl).mpr rfl

/-- C4: under exact divisibility of the corner offsets by
`zoom_blocks_per_pixel`, the crop box computed from the `area` argument
equals the canvas grid's corners plus the exact quotients
`(area.corner - world_grid.rect.corner) / zoom_bpp`, pairing top-left with
top-left and bottom-right with bottom-right. -/
theorem c4_area_crop_box (area : Rect) (zoom : Fin 4) (q1x q1y q2x q2y : Int)
    (h1x : area.x1 - (worldRect (bumpDegenerate (tileRectOfArea area (SQMAP_ZOOM_BPP zoom)))
      (SQMAP_ZOOM_BPP zoom)).x1 = SQMAP_ZOOM_BPP zoom * q1x)
    (h1y : area.y1 - (worldRect (bumpDegenerate (tileRectOfArea area (SQMAP_ZOOM_BPP zoom)))
      (SQMAP_ZOOM_BPP zoom)).y1 = SQMAP_ZOOM_BPP zoom * q1y)
    (h2x : area.x2 - (worldRect (bumpDegenerate (tileRectOfArea area (SQMAP_ZOOM_BPP zoom)))
      (SQMAP_ZOOM_BPP zoom)).x2 = SQMAP_ZOOM_BPP zoom * q2x)
    (h2y : area.y2 - (worldRect (bumpDegenerate (tileRectOfArea area (SQMAP_ZOOM_BPP zoom)))
      (SQMAP_ZOOM_BPP zoom)).y2 = SQMAP_ZOOM_BPP zoom * q2y) :
    areaCropBox area zoom =
      ⟨(canvasRect (bumpDegenerate (tileRectOfArea area (SQMAP_ZOOM_BPP zoom)))).x1 + q1x,
       (canvasRect (bumpDegenerate (tileRectOfArea area (SQMAP_ZOOM_BPP zoom)))).y1 + q1y,
       (canvasRect (bumpDegenerate (tileRectOfArea area (SQMAP_ZOOM_BPP zoom)))).x2 + q2x,
       (canvasRect (bumpDegenerate (tileRectOfArea area (SQMAP_ZOOM_BPP zoom)))).y2 + q2y⟩ := by
  have hbpp : SQMAP_ZOOM_BPP zoom ≠ 0 := by fin_cases zoom <;> decide
  simp only [areaCropBox]
  rw [h1x, h1y, h2x, h2y]
  rw [Int.mul_fdiv_cancel_left _ hbpp, Int.mul_fdiv_cancel_left _ hbpp,
    Int.mul_fdiv_cancel_left _ hbpp, Int.mul_fdiv_cancel_left _ hbpp]

/-- C4 witness: the theorem at `area = (-4096, -4096, 4096, 4096)`, zoom 0
(8 blocks per pixel), where every corner offset is exactly divisible. -/
theorem c4_area_crop_box_witness :
    areaCropBox ⟨-4096, -4096, 4096, 4096⟩ 0 = ⟨0, 0, 1024, 1024⟩ := by
  have h := c4_area_crop_box ⟨-4096, -4096, 4096, 4096⟩ 0 0 0 (-512) (-512)
    (by decide) (by decide) (by decide) (by decide)
  rw [h]
  decide

lemma mem_pyRange (a b s x : Int) (k : Nat) (hk : k < pyRangeLen a b s)
    (hx : x = a + s * k) : x ∈ pyRange a b s := by
  subst hx
  unfold pyRange
  exact List.mem_map_of_mem (fun k : Nat => a + s * (k : Int)) (List.mem_range.mpr hk)

lemma origin_mem_stepsAxis (r1 r2 s o : Int) (hs : 0 < s) (h1 : r1 ≤ 0) (h2 : 0 ≤ r2) :
    o ∈ stepsAxis r1 r2 s o := by
  unfold stepsAxis
  rw [if_neg (by omega)]
  apply List.mem_append_left
  have hc0 : 0 ≤ (-r1).fdiv s := Int.fdiv_nonneg (by omega) (le_of_lt hs)
  have hb1 : o ≤ snapFloor r2 s + o := by
    have hnn : 0 ≤ r2.fdiv s := Int.fdiv_nonneg h2 (le_of_lt hs)
    have := mul_nonneg (le_of_lt hs) hnn
    unfold snapFloor
    omega
  rw [min_eq_left hb1]
  have hb0 : snapCeil r1 s + o = o - s * ((-r1).fdiv s) := by
    unfold snapCeil
    ring
  rw [hb0]
  have hlen : pyRangeLen (o - s * ((-r1).fdiv s)) (o + 1) s = ((-r1).fdiv s).toNat + 1 := by
    unfold pyRangeLen
    rw [if_pos hs]
    have harith : o + 1 - (o - s * ((-r1).fdiv s)) + s - 1 = s * ((-r1).fdiv s + 1) := by
      ring
    rw [harith, Int.mul_fdiv_cancel_left _ (by omega)]
    omega
  refine mem_pyRange _ _ _ _ ((-r1).fdiv s).toNat ?_ ?_
  · rw [hlen]
    exact Nat.lt_succ_self _
  · rw [Int.toNat_of_nonneg hc0]
    ring

/-- C5: the claim says `iter_steps()` contains the origin point whenever the
origin lies within the rect bounds.  `steps_x` snaps the rect bounds to the
step and only then adds the origin component, so for the grid with rect
`(10, 10, 20, 20)`, step 10 and origin `(15, 15)` — origin inside the rect —
the x steps are `[25, 35]`, which misses the origin (and even lies outside
the rect). -/
theorem c5_counterexample :
    (10 ≤ (Grid.mk ⟨10, 10, 20, 20⟩ 10 (15, 15)).origin.1 ∧
      (Grid.mk ⟨10, 10, 20, 20⟩ 10 (15, 15)).origin.1 ≤ 20 ∧
      10 ≤ (Grid.mk ⟨10, 10, 20, 20⟩ 10 (15, 15)).origin.2 ∧
      (Grid.mk ⟨10, 10, 20, 20⟩ 10 (15, 15)).origin.2 ≤ 20) ∧
    (Grid.mk ⟨10, 10, 20, 20⟩ 10 (15, 15)).steps_x = [25, 35] ∧
    (Grid.mk ⟨10, 10, 20, 20⟩ 10 (15, 15)).origin.1 ∉
      (Grid.mk ⟨10, 10, 20, 20⟩ 10 (15, 15)).steps_x ∧
    (Grid.mk ⟨10, 10, 20, 20⟩ 10 (15, 15)).origin ∉
      (Grid.mk ⟨10, 10, 20, 20⟩ 10 (15, 15)).iter_steps := by
  decide

/-- C5 (amended): for any positive step and any origin, `steps_x` contains
`origin.x` (and `steps_y` contains `origin.y`, and `iter_steps()` the origin
point) precisely when the rect spans coordinate 0 on that axis; the
hypotheses here are `rect.x1 ≤ 0 ≤ rect.x2` and `rect.y1 ≤ 0 ≤ rect.y2`,
which for the default origin `(0, 0)` coincide with the origin lying within
the rect bounds. -/
theorem c5_origin_in_steps (g : Grid) (hs : 0 < g.step)
    (hx1 : g.rect.x1 ≤ 0) (hx2 : 0 ≤ g.rect.x2)
    (hy1 : g.rect.y1 ≤ 0) (hy2 : 0 ≤ g.rect.y2) :
    g.origin.1 ∈ g.steps_x ∧ g.origin.2 ∈ g.steps_y ∧ g.origin ∈ g.iter_steps := by
  have hx := origin_mem_stepsAxis g.rect.x1 g.rect.x2 g.step g.origin.1 hs hx1 hx2
  have hy := origin_mem_stepsAxis g.rect.y1 g.rect.y2 g.step g.origin.2 hs hy1 hy2
  exact ⟨hx, hy, (mem_pairs g.steps_x g.steps_y g.origin).mpr ⟨hx, hy⟩⟩

/-- C5 witness: the amended theorem at a concrete grid whose rect spans 0 on
both axes, with a non-zero origin. -/
theorem c5_origin_in_steps_witness :
    ((3 : Int), (4 : Int)) ∈ (Grid.mk ⟨-10, -10, 10, 10⟩ 10 (3, 4)).iter_steps :=
  (c5_origin_in_steps ⟨⟨-10, -10, 10, 10⟩, 10, (3, 4)⟩ (by decide) (by decide)
    (by decide) (by decide) (by decide)).2.2

lemma pytrunc_intCast (n : Int) : pytrunc (n : ℚ) = n := by
  unfold pytrunc
  rw [Rat.num_intCast, Rat.den_intCast]
  simp [Int.tdiv_one]

/-- C10: `Coord2i` construction succeeds exactly on whole-number components
and then stores the exactly equal integers, and `Coord2f.as_int` rounds via
the supplied function, defaulting to Python `int`, which truncates toward
zero (floor for non-negatives, ceiling for negatives) — not an implicit
floor. -/
theorem c10_coord_rounding (x y q : ℚ) :
    ((mkCoord2i x y).isSome ↔ (Int.fract x = 0 ∧ Int.fract y = 0)) ∧
    (∀ p : Int × Int, mkCoord2i x y = some p → ((p.1 : ℚ) = x ∧ (p.2 : ℚ) = y)) ∧
    coord2fAsInt pytrunc (x, y) = (pytrunc x, pytrunc y) ∧
    pytrunc q = (if 0 ≤ q then ⌊q⌋ else ⌈q⌉) := by
  refine ⟨?_, ?_, rfl, ?_⟩
  · by_cases h1 : Int.fract x = 0 <;> by_cases h2 : Int.fract y = 0 <;>
      simp [mkCoord2i, h1, h2]
  · intro p hp
    unfold mkCoord2i at hp
    split_ifs at hp with h1 h2
    rw [not_not] at h1 h2
    injection hp with hp
    subst hp
    have hx : x = ((⌊x⌋ : Int) : ℚ) := by
      have := Int.floor_add_fract x
      rw [h1] at this
      linarith
    constructor
    · rw [hx, pytrunc_intCast]
    · have hy : y = ((⌊y⌋ : Int) : ℚ) := by
        have := Int.floor_add_fract y
        rw [h2] at this
        linarith
      rw [hy, pytrunc_intCast]
  · by_cases hq : 0 ≤ q
    · rw [if_pos hq]
      unfold pytrunc
      rw [Rat.floor_def]
      exact Int.tdiv_eq_ediv (Rat.num_nonneg.mpr hq) (Int.ofNat_nonneg q.den)
    · rw [if_neg hq]
      push_neg at hq
      have hnum : 0 ≤ (-q).num := Rat.num_nonneg.mpr (by linarith)
      have step1 : pytrunc q = -((-q).num.tdiv (-q).den) := by
        unfold pytrunc
        rw [Rat.num_neg_eq_neg_num, Rat.den_neg_eq_den, Int.neg_tdiv, neg_neg]
      rw [step1, Int.tdiv_eq_ediv hnum (Int.ofNat_nonneg (-q).den), ← Rat.floor_def,
        Int.floor_neg, neg_neg]

/-- C10 witness: the theorem applied at the whole-number pair `(3, -2)`. -/
theorem c10_coord_rounding_witness :
    (((3 : Int), (-2 : Int)).1 : ℚ) = (3 : ℚ) ∧ (((3 : Int), (-2 : Int)).2 : ℚ) = (-2 : ℚ) :=
  (c10_coord_rounding 3 (-2) 0).2.1 (3, -2) (by
    unfold mkCoord2i pytrunc
    norm_num)

/-- C9 witness: the theorem applied to the concrete hexcode `ff00007f`. -/
theorem c9_channel_bounds_witness :
    0 ≤ (Color.mk 255 0 0 127).red ∧ (Color.mk 255 0 0 127).red ≤ 255 ∧
    0 ≤ (Color.mk 255 0 0 127).green ∧ (Color.mk 255 0 0 127).green ≤ 255 ∧
    0 ≤ (Color.mk 255 0 0 127).blue ∧ (Color.mk 255 0 0 127).blue ≤ 255 ∧
    0 ≤ (Color.mk 255 0 0 127).alpha ∧ (Color.mk 255 0 0 127).alpha ≤ 255 :=
  c9_channel_bounds.2 ['f', 'f', '0', '0', '0', '0', '7', 'f'] ⟨255, 0, 0, 127⟩ (by decide)

end SqmapCombine
